import Mathlib

/-!
Verification development for the turn-execution engine in `src/game/engine.py`
(class `Engine`).  The Python code is shallowly embedded: the per-client record
(`Player`), the per-tick thread launch and result collection of `Engine.tick`,
the per-client processing of `Engine.boot`, the join-timeout arithmetic of the
result-collection phase, the shutdown procedure, and the top-level loop are
translated into executable Lean definitions, and the specification's claims are
settled against them.

Collaborator code that lives outside `src/` (the `CommunicationThread` helper,
`verify_num_clients`) is modelled from the specification and marked as such in
its doc comment.  External collaborators that are out of the specification's
scope (the master controller, file writing) are abstracted to opaque successes.
-/

namespace EngineModel

/-- The per-client record (`game.common.player.Player`), restricted to the
fields the engine reads or writes: `id`, `functional`, `error`, `actions`,
`team_name`, `file_name`.  Actions are opaque to the engine; they are modelled
as strings.  A freshly constructed player is functional with no error, no
actions, and no identity. -/
structure Player where
  id : Nat
  functional : Bool
  error : Option String
  actions : List String
  teamName : Option String
  fileName : Option String
  deriving Repr, DecidableEq

/-- The observable state of one turn thread (`game.utils.thread.Thread`) at the
moment `Engine.tick` inspects it in the collection loop (lines 220-235):
`result` is the value produced by `take_turn` (none if the thread has not
finished or produced nothing), `alive` is whether the thread is still running
when `is_alive()` is checked, and `error` is an exception captured during the
turn. -/
structure ThreadRes where
  result : Option (List String)
  alive : Bool
  error : Option String
  deriving Repr, DecidableEq

/-- The body of the collection loop of `Engine.tick` (lines 221-235) applied to
one `(client, thr)` pair produced by `zip`: load the thread's result into
`client.actions` (empty if none), mark the client non-functional with the
timeout diagnostic if the thread is still alive, and mark it non-functional
with the captured error if the thread errored. -/
def applyThread (c : Player) (t : ThreadRes) : Player :=
  let c1 : Player := { c with actions := t.result.getD [] }
  let c2 : Player :=
    if t.alive then
      { c1 with functional := false
                error := some (toString c1.id ++ " failed to reply in time and has been dropped.") }
    else c1
  if t.error.isSome then { c2 with functional := false, error := t.error } else c2

/-- The collection loop `for client, thr in zip(self.clients, threads)` of
`Engine.tick` (line 221).  Python's `zip` truncates to the shorter list, so
clients beyond the number of threads are left untouched. -/
def collectResults : List Player → List ThreadRes → List Player
  | [], _ => []
  | cs, [] => cs
  | c :: cs, t :: ts => applyThread c t :: collectResults cs ts

/-- The launch loop of `Engine.tick` (lines 186-197): one thread is created per
functional client, in client order; non-functional clients are skipped.  The
behaviour of a client's `take_turn` thread is abstracted as a function from the
client to its thread outcome. -/
def launchedThreads (clients : List Player) (turnOf : Player → ThreadRes) : List ThreadRes :=
  (clients.filter (fun c => c.functional)).map turnOf

/-- The client-state effect of one `Engine.tick`: launch threads for the
functional clients, then run the collection loop over
`zip(self.clients, threads)`. -/
def tickClients (clients : List Player) (turnOf : Player → ThreadRes) : List Player :=
  collectResults clients (launchedThreads clients turnOf)

/-! ### Boot: per-client validation, instantiation, and identity handshake
(`Engine.boot`, lines 80-130). -/

/-- Outcome of the identity handshake thread started at line 108
(`CommunicationThread(player.code.team_name, list(), str)` joined for 0.01 s):
either the client produced its team name within the deadline, or the thread was
still running at the deadline, or the call raised. -/
inductive HandshakeOutcome where
  | inTime (name : String)
  | timedOut
  | raised (msg : String)
  deriving Repr, DecidableEq

/-- Everything about one discovered client file that `Engine.boot` consumes:
the result `(imports, opening)` of `verify_code` on the client's source, the
outcome of importing the module and calling `im.Client()` (`some msg` when it
raised), and the outcome of the identity handshake. -/
structure BootEnv where
  verifyImports : List String
  verifyOpening : Bool
  instantiation : Option String
  handshake : HandshakeOutcome
  deriving Repr, DecidableEq

/-- The diagnostic written at line 87 for illegal imports. -/
def importDiag (imports : List String) : String :=
  "Player has attempted illegal imports: " ++ toString imports

/-- The diagnostic written at line 91 for use of `open`. -/
def openDiag : String := "Player is using \"open\" which is forbidden."

/-- Boot-time events in program order, used to state in which order `boot`
marks, instantiates, and invokes a client. -/
inductive BootEvent where
  | validationMark (diag : String)
  | instantiated
  | identityInvoked
  deriving Repr, DecidableEq

/-- Modelled from the spec: `CommunicationThread.retrieve_value`
(`game/utils/thread.py`, not under `src/`).  Section 4.2 of the specification
says that on a handshake timeout or exception no identity is assigned; the
engine assigns `player.team_name = thr.retrieve_value()` inside a `try` whose
`except` marks the client non-functional, so `retrieve_value` is modelled as
yielding the produced value and failing when the thread never produced one. -/
def retrieveValue : HandshakeOutcome → Except String String
  | HandshakeOutcome.inTime name => Except.ok name
  | HandshakeOutcome.timedOut => Except.error "communication thread produced no value"
  | HandshakeOutcome.raised _ => Except.error "communication thread produced no value"

/-- The processing that `Engine.boot` applies to one already-constructed
player (lines 83-126), in source order: `verify_code` marking (lines 84-91),
module import and `im.Client()` instantiation with `continue` on failure
(lines 94-102), then the identity handshake with its `finally` block that sets
`file_name` and assigns `team_name` from `retrieve_value`, marking the client
non-functional when that raises (lines 105-126).  Returns the updated player
together with the boot events in the order they occurred. -/
def bootProcess (p : Player) (e : BootEnv) (filename : String) : Player × List BootEvent :=
  let importEvents :=
    if e.verifyImports ≠ [] then [BootEvent.validationMark (importDiag e.verifyImports)] else []
  let p := if e.verifyImports ≠ [] then
      { p with functional := false, error := some (importDiag e.verifyImports) } else p
  let openEvents := if e.verifyOpening then [BootEvent.validationMark openDiag] else []
  let p := if e.verifyOpening then { p with functional := false, error := some openDiag } else p
  let events := importEvents ++ openEvents ++ [BootEvent.instantiated]
  match e.instantiation with
  | some msg => ({ p with functional := false, error := some msg }, events)
  | none =>
    let events := events ++ [BootEvent.identityInvoked]
    let p :=
      match e.handshake with
      | HandshakeOutcome.timedOut =>
        { p with functional := false, error := some "Client failed to provide a team name in time." }
      | HandshakeOutcome.raised msg => { p with functional := false, error := some msg }
      | HandshakeOutcome.inTime _ => p
    let p := { p with fileName := some filename }
    match retrieveValue e.handshake with
    | Except.ok name => ({ p with teamName := some name }, events)
    | Except.error msg => ({ p with functional := false, error := some msg }, events)

/-- A freshly constructed `Player()` (line 80): functional, with no error, no
actions, and no identity. -/
def freshPlayer (i : Nat) : Player :=
  { id := i, functional := true, error := none, actions := [], teamName := none, fileName := none }

/-- Boot processing of one discovered client file: construct the player, then
run the per-client boot pipeline on it. -/
def bootClient (i : Nat) (e : BootEnv) (filename : String) : Player × List BootEvent :=
  bootProcess (freshPlayer i) e filename

/-! ### The result-collection timing of `Engine.tick` (lines 202-218).

All times are absolute wall-clock instants in microseconds.  The per-turn
budget `MAX_SECONDS_PER_TURN` enters the code in seconds and is divided
against `time_elapsed / 1000000`; scaling both sides by `10 ^ 6` keeps the
arithmetic exact, so the budget `B` below is the per-turn budget expressed in
microseconds. -/

/-- The elapsed-time computation of lines 210-212:
`datetime.now().microsecond - start_time.microsecond`, i.e. the difference of
the sub-second microsecond components only, which may be negative. -/
def codeElapsed (t0 now : Nat) : Int :=
  ((now % 1000000 : Nat) : Int) - ((t0 % 1000000 : Nat) : Int)

/-- The join timeout of lines 214-216: `max(0.0, B - time_elapsed)`. -/
def joinTimeout (B : Int) (t0 now : Nat) : Int :=
  max 0 (B - codeElapsed t0 now)

/-- Wall-clock time consumed by `thr.join(timeout)` at instant `now` for a
thread that finishes at absolute instant `fin` (`none` when it never
finishes): the join returns as soon as the thread finishes, and at the latest
when the timeout elapses. -/
def joinWallTime (timeout : Int) (now : Nat) (fin : Option Nat) : Nat :=
  match fin with
  | none => timeout.toNat
  | some f => min timeout.toNat (f - now)

/-- The instant at which the join loop of lines 204-218 finishes, starting at
instant `now` with batch launch instant `t0`, given each thread's absolute
finish instant in join order. -/
def collectEnd (B : Int) (t0 : Nat) : List (Option Nat) → Nat → Nat
  | [], now => now
  | fin :: rest, now => collectEnd B t0 rest (now + joinWallTime (joinTimeout B t0 now) now fin)

/-- Total wall-clock time of the result-collection phase: the join loop runs
from the launch instant `t0` until `collectEnd`. -/
def collectTotal (B : Int) (t0 : Nat) (fins : List (Option Nat)) : Nat :=
  collectEnd B t0 fins t0 - t0

/-! ### Liveness gate, shutdown, and the top-level loop. -/

/-- Modelled from the spec: `verify_num_clients`
(`game/utils/validation.py`, not under `src/`; the LivenessGate of section
4.3).  A pure function of the live-client count and the configured bounds:
exact mode (`exact = some k`) requires the count to equal `k`, range mode
requires it to lie in `[mn, mx]`; it returns a violation reason or `none`. -/
def verify_num_clients (liveCount : Nat) (exact : Option Nat) (mn mx : Nat) : Option String :=
  match exact with
  | some k => if liveCount = k then none else some "Incorrect number of clients connected"
  | none =>
    if mn ≤ liveCount ∧ liveCount ≤ mx then none
    else some "Number of clients connected out of range"

/-- The observable effects of a completed `Engine.shutdown` run
(lines 269-303): the results file was written, with which `reason`, which
client errors were printed, whether stdout was flushed, and the process exit
(`some 1` on the fatal path, `none` when shutdown returns — the `os._exit(0)`
of line 303 is commented out). -/
structure ShutdownEffects where
  resultsWritten : Bool
  reasonWritten : Option String
  printedErrors : List String
  flushed : Bool
  exitCode : Option Nat
  deriving Repr, DecidableEq

/-- `Engine.shutdown` (lines 269-303).  `singleClientMode` is
`SET_NUMBER_OF_CLIENTS_START == 1`.  In single-client mode the results are
built from `self.clients[0]` unconditionally (line 276), which raises
`IndexError` on an empty client list before the results file is written; this
is modelled by the `Except.error` branch.  The master controller's
`return_final_results` and the JSON writes are external collaborators,
abstracted as succeeding. -/
def shutdownRun (clients : List Player) (singleClientMode : Bool) (source : Option String) :
    Except String ShutdownEffects :=
  if singleClientMode ∧ clients = [] then
    Except.error "list index out of range"
  else
    Except.ok
      { resultsWritten := true
        reasonWritten := source
        printedErrors := if source.isSome then clients.filterMap (fun c => c.error) else []
        flushed := true
        exitCode := if source.isSome then some 1 else none }

/-- The tail of `Engine.boot` (lines 132-140): filter the functional clients,
run the liveness gate with the start bounds, and on a violation call
`shutdown(source='Client_error')`; on success boot proceeds (`none`). -/
def bootFinish (clients : List Player) (exact : Option Nat) (mn mx : Nat) :
    Option (Except String ShutdownEffects) :=
  let funcClients := clients.filter (fun c => c.functional)
  match verify_num_clients funcClients.length exact mn mx with
  | some _ => some (shutdownRun clients (exact = some 1) (some "Client_error"))
  | none => none

/-- What one iteration of the tick loop can observe, abstracting all external
behaviour: whether an unhandled exception escapes the iteration, whether the
continue-bounds liveness check in `Engine.tick` fails (fatal shutdown), and
whether the master controller reports game over in `Engine.post_tick`. -/
structure TickSpec where
  raises : Bool
  continueViolation : Bool
  gameOver : Bool
  deriving Repr, DecidableEq

/-- Number of times the body of `Engine.shutdown` runs during the tick loop of
`Engine.loop` (lines 43-57), given the outcomes of the successive iterations
the master controller's generator yields.  Per iteration: `pre_tick`
increments the tick counter; an unhandled exception is caught by the
top-level `except` and routes to the `finally`, which runs shutdown once; a
continue-bounds violation runs shutdown with a fatal source, which calls
`os._exit(1)` and so skips the `finally`; a game-over check in `post_tick`
runs shutdown (which returns, its exit being commented out) and the loop
continues; reaching `MAX_TICKS` breaks out to the `finally`.  When the
generator is exhausted the `finally` runs shutdown once. -/
def loopShutdowns : List TickSpec → Nat → Nat → Nat
  | [], _, _ => 1
  | t :: rest, tickNo, maxTicks =>
    let tickNo := tickNo + 1
    if t.raises then 1
    else if t.continueViolation then 1
    else
      (if t.gameOver then 1 else 0) +
      (if maxTicks ≤ tickNo then 1 else loopShutdowns rest tickNo maxTicks)

/-- The situation of a whole `Engine.loop` execution, abstracting all external
behaviour: the clients list as it stands when `Engine.boot` reaches its
count check, whether the single-client configuration
(`SET_NUMBER_OF_CLIENTS_START == 1`) is in force, whether the boot-time count
check fails, and the outcomes of the successive tick-loop iterations. -/
structure LoopEnv where
  clientsAtBoot : List Player
  singleClientMode : Bool
  bootViolation : Bool
  ticks : List TickSpec
  maxTicks : Nat
  deriving Repr, DecidableEq

/-- Number of times the body of `Engine.shutdown` is entered over a whole
`Engine.loop` execution.  On a boot-time count violation, `boot` calls
`shutdown(source='Client_error')` (line 140): when that call completes it ends
in `os._exit(1)`, which skips the `finally` of `Engine.loop` — one entry.
When it raises instead (the `self.clients[0]` read of line 276, modelled by
the `Except.error` branch of `shutdownRun`), the exception propagates out of
`boot` into the `except` of `Engine.loop` (line 53), and the `finally` then
enters `shutdown` a second time — two entries.  Without a boot violation the
tick loop runs; there every entered shutdown completes, because once boot's
gate passed the clients list is non-empty whenever the single-client
configuration is in force (exactly one functional client) and it never
shrinks, so `loopShutdowns` counts entries and completions alike. -/
def runLoopShutdownEntries (env : LoopEnv) : Nat :=
  if env.bootViolation then
    match shutdownRun env.clientsAtBoot env.singleClientMode (some "Client_error") with
    | Except.ok _ => 1
    | Except.error _ => 2
  else loopShutdowns env.ticks 0 env.maxTicks

/-- Number of shutdown entries that run the procedure to completion.  On the
boot-violation path the single completing possibility is the `Except.ok`
branch of `shutdownRun`; on the raising sub-path both entries raise at
`self.clients[0]`, so none completes.  In the tick loop entries and
completions coincide (see `runLoopShutdownEntries`). -/
def runLoopShutdownCompletions (env : LoopEnv) : Nat :=
  if env.bootViolation then
    match shutdownRun env.clientsAtBoot env.singleClientMode (some "Client_error") with
    | Except.ok _ => 1
    | Except.error _ => 0
  else loopShutdowns env.ticks 0 env.maxTicks

/-- The file-system state `Engine.shutdown` writes: the results file content,
recorded as the `reason` it was last written with (`none` while the file has
not been written). -/
structure EngineFiles where
  resultsReason : Option (Option String)
  deriving Repr, DecidableEq

/-- `Engine.shutdown` as a state transformer.  Lines 269-303 assign no
attribute of `self` — they only read the clients list and the tick counter —
so the engine state passes through unchanged, and the results file is
overwritten with content computed from that state (the `reason` field holds
`source`); when the `self.clients[0]` read raises first, the results file is
left as it was. -/
def shutdownStep (clients : List Player) (singleMode : Bool) (source : Option String)
    (files : EngineFiles) : (List Player × EngineFiles) × Except String ShutdownEffects :=
  match shutdownRun clients singleMode source with
  | Except.ok eff => ((clients, { resultsReason := some source }), Except.ok eff)
  | Except.error msg => ((clients, files), Except.error msg)

/-! ### Concrete clients and turn behaviours used in the theorems below. -/

/-- A client that is already non-functional at the start of a tick. -/
def clientSkipped : Player :=
  { id := 0, functional := false, error := none, actions := [], teamName := some "A",
    fileName := none }

/-- A functional client. -/
def clientLive : Player :=
  { id := 1, functional := true, error := none, actions := [], teamName := some "B",
    fileName := none }

/-- Turn behaviour where the live client's thread finishes with actions
`["x"]` but raised the error `boom` during the turn. -/
def turnErrored : Player → ThreadRes := fun c =>
  if c.id = 1 then { result := some ["x"], alive := false, error := some "boom" }
  else { result := none, alive := false, error := none }

/-- A second non-functional client. -/
def clientIdle : Player :=
  { id := 2, functional := false, error := none, actions := [], teamName := some "C",
    fileName := none }

/-- A second functional client. -/
def clientMover : Player :=
  { id := 3, functional := true, error := none, actions := [], teamName := some "D",
    fileName := none }

/-- Turn behaviour where the functional client's thread completes normally
with actions `["move"]`. -/
def turnMove : Player → ThreadRes := fun c =>
  if c.id = 3 then { result := some ["move"], alive := false, error := none }
  else { result := none, alive := false, error := none }

/-- A third non-functional client. -/
def clientRetired : Player :=
  { id := 4, functional := false, error := none, actions := [], teamName := some "E",
    fileName := none }

/-- A functional client whose turn thread hangs past the budget. -/
def clientHanging : Player :=
  { id := 5, functional := true, error := none, actions := [], teamName := some "F",
    fileName := none }

/-- Turn behaviour where the functional client's thread is still alive when
the collection loop inspects it. -/
def turnHang : Player → ThreadRes := fun c =>
  if c.id = 5 then { result := none, alive := true, error := none }
  else { result := none, alive := false, error := none }

/-- A retired client with a recorded error, used in witnesses. -/
def clientDead : Player :=
  { id := 9, functional := false, error := some "client 9 crashed", actions := [],
    teamName := some "G", fileName := none }

/-! ### Helper lemmas. -/

lemma zip_self_eq {α : Type} : ∀ (l : List α) (pr : α × α), pr ∈ List.zip l l → pr.1 = pr.2 := by
  intro l
  induction l with
  | nil => intro pr h; simp at h
  | cons a l ih =>
    intro pr h
    rcases (by simpa using h : pr = (a, a) ∨ pr ∈ List.zip l l) with h1 | h1
    · rw [h1]
    · exact ih pr h1

lemma applyThread_functional_mono (c : Player) (t : ThreadRes) (h : c.functional = false) :
    (applyThread c t).functional = false := by
  unfold applyThread
  by_cases ha : t.alive <;> by_cases he : t.error.isSome <;> simp [ha, he, h]

lemma collect_functional_mono :
    ∀ (cs : List Player) (ts : List ThreadRes) (pr : Player × Player),
      pr ∈ List.zip cs (collectResults cs ts) → pr.1.functional = false →
      pr.2.functional = false := by
  intro cs
  induction cs with
  | nil => intro ts pr h; simp [collectResults] at h
  | cons c cs ih =>
    intro ts pr h hf
    cases ts with
    | nil =>
      have := zip_self_eq (c :: cs) pr (by simpa [collectResults] using h)
      rw [← this]; exact hf
    | cons t ts =>
      rcases (by simpa [collectResults] using h :
          pr = (c, applyThread c t) ∨ pr ∈ List.zip cs (collectResults cs ts)) with h1 | h1
      · rw [h1]
        exact applyThread_functional_mono c t (by rw [h1] at hf; exact hf)
      · exact ih ts pr h1 hf

lemma bootProcess_functional_mono (p : Player) (e : BootEnv) (fn : String)
    (h : p.functional = false) : (bootProcess p e fn).1.functional = false := by
  by_cases hi : e.verifyImports = [] <;> by_cases ho : e.verifyOpening <;>
    cases hins : e.instantiation <;> cases hh : e.handshake <;>
      simp [bootProcess, hi, ho, hins, hh, retrieveValue, h]

/-! ### Claim theorems. -/

/-- C2: the claim that per-tick outcomes are attributed to each client's own
execution unit fails on the code.  With clients `[clientSkipped, clientLive]`
(in that fixed order) and the live client's unit completing with actions
`["x"]` and error `boom`, the `zip` of the full client list with the
threads-of-functional-clients list pairs the skipped client with the live
client's thread: the skipped client (which had no unit) records actions
`["x"]` and error `boom`, while the live client's own unit's outcome is never
applied to it. -/
theorem tick_outcome_attributed_to_wrong_client :
    (tickClients [clientSkipped, clientLive] turnErrored).map
        (fun c => (c.id, c.actions, c.error, c.functional)) =
      [(0, ["x"], some "boom", false), (1, [], none, true)] := by rfl

/-- C3: the claim that a client that is non-functional at the start of the
tick always ends the tick with an empty action sequence fails on the code.
With clients `[clientIdle, clientMover]` and the functional client's unit
returning `["move"]`, the `zip` misalignment stores `["move"]` into the
non-functional client's `actions`. -/
theorem skipped_client_gets_nonempty_actions :
    (tickClients [clientIdle, clientMover] turnMove).map (fun c => (c.functional, c.actions)) =
      [(false, ["move"]), (true, [])] := by rfl

/-- C7: the claim that a client whose turn computation is still running when
its wait expires is marked non-functional with a timeout diagnostic naming
that client fails on the code.  With clients `[clientRetired, clientHanging]`
and the hanging client's thread still alive at collection, the `zip`
misalignment marks the already-retired client (id 4) with the timeout
diagnostic while the hanging client (id 5) stays functional with no error. -/
theorem timeout_not_attributed_to_hung_client :
    (tickClients [clientRetired, clientHanging] turnHang).map
        (fun c => (c.id, c.functional, c.error)) =
      [(4, false, some "4 failed to reply in time and has been dropped."), (5, true, none)] := by
  rfl

/-- C4: the functional flag is monotone — it never transitions from false back
to true.  The collection step of `Engine.tick` applied to one client, the
whole per-tick client update (attribution taken positionally, as the code
does), and the per-client boot processing each preserve `functional = false`;
`pre_tick`, `post_tick` and `shutdown` never assign the flag at all. -/
theorem functional_flag_monotone :
    (∀ (c : Player) (t : ThreadRes), c.functional = false →
      (applyThread c t).functional = false) ∧
    (∀ (clients : List Player) (turnOf : Player → ThreadRes) (pr : Player × Player),
      pr ∈ List.zip clients (tickClients clients turnOf) → pr.1.functional = false →
      pr.2.functional = false) ∧
    (∀ (p : Player) (e : BootEnv) (fn : String), p.functional = false →
      (bootProcess p e fn).1.functional = false) :=
  ⟨applyThread_functional_mono,
   fun clients turnOf pr h hf => collect_functional_mono clients (launchedThreads clients turnOf) pr h hf,
   bootProcess_functional_mono⟩

/-- Witness for C4 at concrete inputs: a non-functional client stays
non-functional through the collection step, through a whole tick, and through
boot processing. -/
theorem functional_flag_monotone_witness :
    (applyThread clientIdle { result := none, alive := false, error := none }).functional = false ∧
    (clientRetired, clientRetired).2.functional = false ∧
    (bootProcess clientIdle
      { verifyImports := [], verifyOpening := false, instantiation := none,
        handshake := HandshakeOutcome.inTime "T" } "file").1.functional = false :=
  ⟨functional_flag_monotone.1 clientIdle _ rfl,
   functional_flag_monotone.2.1 [clientRetired] (fun _ => { result := none, alive := false, error := none })
     (clientRetired, clientRetired) (by decide) rfl,
   functional_flag_monotone.2.2 clientIdle _ "file" rfl⟩

/-- C1: the claim that the result-collection phase takes at most the per-turn
budget plus a fixed overhead, independent of the client count and of the
launch instant's position within a second, fails on the code: the elapsed-time
computation uses only the sub-second microsecond components.  For any budget
`B ≥ 0.1 s` (in microseconds), launching at `0.9 s` past a second with a first
thread finishing `0.1 s` later and a second thread hanging makes the whole
phase take `B + 1 s` — the second join sees a negative elapsed time and waits
`B + 0.9 s` — while the same threads launched exactly on a second boundary
take `B`. -/
theorem collect_phase_unbounded_across_second_boundary (B : Int) (hB : 100000 ≤ B) :
    collectTotal B 900000 [some 1000000, none] = (B + 1000000).toNat ∧
    collectTotal B 0 [some 100000, none] = B.toNat := by
  constructor <;>
    · norm_num [collectTotal, collectEnd, joinWallTime, joinTimeout, codeElapsed]
      omega

/-- Witness for C1 at the budget `B = 1 s`: the collection phase over the two
threads takes 2 s when launched at 0.9 s past a second, and 1 s when launched
on a second boundary. -/
theorem collect_phase_unbounded_witness :
    collectTotal 1000000 900000 [some 1000000, none] = 2000000 ∧
    collectTotal 1000000 0 [some 100000, none] = 1000000 :=
  collect_phase_unbounded_across_second_boundary 1000000 (by norm_num)

lemma one_le_loopShutdowns :
    ∀ (ticks : List TickSpec) (tickNo maxTicks : Nat), 1 ≤ loopShutdowns ticks tickNo maxTicks := by
  intro ticks
  induction ticks with
  | nil => intro tickNo maxTicks; simp [loopShutdowns]
  | cons t rest ih =>
    intro tickNo maxTicks
    unfold loopShutdowns
    by_cases hr : t.raises
    · simp [hr]
    by_cases hc : t.continueViolation
    · simp [hr, hc]
    by_cases hm : maxTicks ≤ tickNo + 1
    · by_cases hg : t.gameOver <;> simp [hr, hc, hm, hg]
    · have := ih (tickNo + 1) maxTicks
      by_cases hg : t.gameOver <;> (simp [hr, hc, hm, hg]; try omega)

lemma loopShutdowns_no_gameover :
    ∀ (ticks : List TickSpec) (tickNo maxTicks : Nat),
      (∀ t ∈ ticks, t.gameOver = false) → loopShutdowns ticks tickNo maxTicks = 1 := by
  intro ticks
  induction ticks with
  | nil => intro tickNo maxTicks _; simp [loopShutdowns]
  | cons t rest ih =>
    intro tickNo maxTicks h
    have hg : t.gameOver = false := h t (List.mem_cons_self t rest)
    have hrest : ∀ u ∈ rest, u.gameOver = false := fun u hu => h u (List.mem_cons_of_mem t hu)
    unfold loopShutdowns
    by_cases hr : t.raises
    · simp [hr]
    by_cases hc : t.continueViolation
    · simp [hr, hc]
    by_cases hm : maxTicks ≤ tickNo + 1
    · simp [hr, hc, hm, hg]
    · simp [hr, hc, hm, hg, ih (tickNo + 1) maxTicks hrest]

/-- A loop execution with no boot violation and one quiet tick that reports
game over. -/
def envGameOver : LoopEnv :=
  { clientsAtBoot := [clientLive], singleClientMode := true, bootViolation := false,
    ticks := [{ raises := false, continueViolation := false, gameOver := true }],
    maxTicks := 10 }

/-- A loop execution with no boot violation, one quiet tick and one tick that
raises, and no game over. -/
def envQuiet : LoopEnv :=
  { clientsAtBoot := [clientLive], singleClientMode := true, bootViolation := false,
    ticks := [{ raises := false, continueViolation := false, gameOver := false },
              { raises := true, continueViolation := false, gameOver := false }],
    maxTicks := 10 }

/-- A loop execution whose boot-time count check fails with no client
registered, in the single-client configuration (spec Scenario B). -/
def envBootEmpty : LoopEnv :=
  { clientsAtBoot := [], singleClientMode := true, bootViolation := true,
    ticks := [], maxTicks := 10 }

/-- C5 counterexample: the claim that shutdown runs exactly once on every path
fails on the normal game-over path.  With no boot violation, a single
non-fatal game-over tick, and a max-tick bound of 10, shutdown runs twice:
once from `post_tick` (whose exit call is commented out, line 303) and once
from the `finally` of `Engine.loop`. -/
theorem shutdown_runs_twice_on_game_over :
    runLoopShutdownEntries envGameOver = 2 ∧ runLoopShutdownEntries envGameOver ≠ 1 := by
  decide

/-- C5 amended: shutdown is entered at least once on every execution; it is
entered exactly once on every path with no non-fatal game-over tick on which
the boot-violation shutdown (if any) completes; on a boot-time count
violation with an empty clients list in the single-client configuration the
shutdown call raises, the `except` of `Engine.loop` catches it, and the
`finally` enters shutdown a second time, so shutdown is entered twice and
completes zero times; and shutdown is idempotent — it mutates no engine
state and its writes overwrite, so a second run from the state left by the
first returns the same state and the same effects. -/
theorem shutdown_entry_count_characterized :
    (∀ env : LoopEnv, 1 ≤ runLoopShutdownEntries env) ∧
    (∀ env : LoopEnv, (∀ t ∈ env.ticks, t.gameOver = false) →
      (env.bootViolation = true →
        ∃ eff, shutdownRun env.clientsAtBoot env.singleClientMode (some "Client_error") =
          Except.ok eff) →
      runLoopShutdownEntries env = 1) ∧
    (∀ env : LoopEnv, env.bootViolation = true → env.singleClientMode = true →
      env.clientsAtBoot = [] →
      runLoopShutdownEntries env = 2 ∧ runLoopShutdownCompletions env = 0) ∧
    (∀ (clients : List Player) (m : Bool) (s : Option String) (fs : EngineFiles),
      shutdownStep clients m s (shutdownStep clients m s fs).1.2 =
        shutdownStep clients m s fs) := by
  refine ⟨?_, ?_, ?_, ?_⟩
  · intro env
    by_cases hb : env.bootViolation
    · cases h : shutdownRun env.clientsAtBoot env.singleClientMode (some "Client_error") <;>
        simp [runLoopShutdownEntries, hb, h]
    · simpa [runLoopShutdownEntries, hb] using one_le_loopShutdowns env.ticks 0 env.maxTicks
  · intro env hg hok
    by_cases hb : env.bootViolation
    · obtain ⟨eff, heff⟩ := hok hb
      simp [runLoopShutdownEntries, hb, heff]
    · simpa [runLoopShutdownEntries, hb] using
        loopShutdowns_no_gameover env.ticks 0 env.maxTicks hg
  · intro env hb hm hc
    have h : shutdownRun env.clientsAtBoot env.singleClientMode (some "Client_error") =
        Except.error "list index out of range" := by
      rw [hc, hm]; rfl
    constructor <;> simp [runLoopShutdownEntries, runLoopShutdownCompletions, hb, h]
  · intro clients m s fs
    cases h : shutdownRun clients m s <;> simp [shutdownStep, h]

/-- Witness for C5's amended claim: a quiet no-game-over execution enters
shutdown exactly once (and at least once); the empty-clients boot violation
enters it twice with zero completions; and a second shutdown run from the
files state left by a first run reproduces it. -/
theorem shutdown_entry_count_witness :
    1 ≤ runLoopShutdownEntries envQuiet ∧
    runLoopShutdownEntries envQuiet = 1 ∧
    (runLoopShutdownEntries envBootEmpty = 2 ∧ runLoopShutdownCompletions envBootEmpty = 0) ∧
    shutdownStep [clientDead] true none
        (shutdownStep [clientDead] true none { resultsReason := none }).1.2 =
      shutdownStep [clientDead] true none { resultsReason := none } :=
  ⟨shutdown_entry_count_characterized.1 envQuiet,
   shutdown_entry_count_characterized.2.1 envQuiet (by decide) (fun h => by simp [envQuiet] at h),
   shutdown_entry_count_characterized.2.2.1 envBootEmpty rfl rfl rfl,
   shutdown_entry_count_characterized.2.2.2 [clientDead] true none { resultsReason := none }⟩

/-- C6 counterexample: the claim that a boot-time client-count violation leads
to a completed fatal shutdown (results written with the reason, errors
printed, output flushed, non-zero exit) fails when no client was registered
and the single-client configuration is in force: the liveness gate fires
(0 functional clients against an exact bound of 1), shutdown is called with
`source = Client_error`, and it raises `IndexError` at `self.clients[0]`
(line 276) before the results file is written. -/
theorem boot_violation_with_no_clients_raises :
    bootFinish [] (some 1) 0 0 = some (Except.error "list index out of range") := by rfl

/-- C6 amended: a boot-time client-count violation leads to shutdown with
`source = Client_error` — results written containing that reason, every
recorded client error printed, output flushed, exit status 1 — provided the
clients list is non-empty whenever the single-client configuration is in
force; with an empty clients list in single-client mode shutdown raises before
the results write instead. -/
theorem boot_count_violation_fatal_shutdown
    (clients : List Player) (exact : Option Nat) (mn mx : Nat)
    (hviol : verify_num_clients (clients.filter (fun c => c.functional)).length exact mn mx ≠ none)
    (hne : exact = some 1 → clients ≠ []) :
    bootFinish clients exact mn mx =
      some (Except.ok
        { resultsWritten := true
          reasonWritten := some "Client_error"
          printedErrors := clients.filterMap (fun c => c.error)
          flushed := true
          exitCode := some 1 }) := by
  cases hv : verify_num_clients (clients.filter (fun c => c.functional)).length exact mn mx with
  | none => exact absurd hv hviol
  | some r =>
    have hcond : ¬(decide (exact = some 1) = true ∧ clients = []) := by
      rintro ⟨h1, h2⟩
      exact hne (of_decide_eq_true h1) h2
    simp only [bootFinish, hv, shutdownRun]
    rw [if_neg hcond]
    simp

/-- Witness for C6's amended claim: one dead registered client, exact bound 1,
0 functional clients — the fatal shutdown completes with the reason, the dead
client's error printed, and exit status 1. -/
theorem boot_count_violation_witness :
    bootFinish [clientDead] (some 1) 0 0 =
      some (Except.ok
        { resultsWritten := true
          reasonWritten := some "Client_error"
          printedErrors := ["client 9 crashed"]
          flushed := true
          exitCode := some 1 }) :=
  boot_count_violation_fatal_shutdown [clientDead] (some 1) 0 0 (by decide)
    (fun _ => by decide)

/-- C10: in the single-client configuration, `Engine.shutdown` reads
`self.clients[0]` unconditionally to build the final results (line 276), so
whenever shutdown is reached with an empty clients list it raises instead of
completing the results write and exit — for every `source`. -/
theorem shutdown_raises_on_empty_clients (source : Option String) :
    shutdownRun [] true source = Except.error "list index out of range" := rfl

/-- Witness for C10 at the fatal source used by the liveness gate. -/
theorem shutdown_raises_on_empty_clients_witness :
    shutdownRun [] true (some "Client_error") = Except.error "list index out of range" :=
  shutdown_raises_on_empty_clients (some "Client_error")

/-- C9: a client whose identity handshake times out or raises is marked
non-functional with a descriptive error recorded, and no identity is assigned
(`team_name` stays unset): the `finally` block's `retrieve_value` fails when
the thread produced no value, so the assignment never happens. -/
theorem handshake_failure_leaves_client_without_identity
    (i : Nat) (e : BootEnv) (fn : String)
    (hinst : e.instantiation = none)
    (hh : e.handshake = HandshakeOutcome.timedOut ∨
      ∃ m, e.handshake = HandshakeOutcome.raised m) :
    (bootClient i e fn).1.functional = false ∧
    (bootClient i e fn).1.error.isSome = true ∧
    (bootClient i e fn).1.teamName = none := by
  unfold bootClient
  rcases hh with hh | ⟨m, hh⟩ <;>
    by_cases hi : e.verifyImports = [] <;> by_cases ho : e.verifyOpening <;>
      simp [bootProcess, freshPlayer, hinst, hh, hi, ho, retrieveValue]

/-- Witness for C9: a clean client whose handshake times out ends boot
non-functional, with an error, and with no team name. -/
theorem handshake_failure_witness :
    (bootClient 1
      { verifyImports := [], verifyOpening := false, instantiation := none,
        handshake := HandshakeOutcome.timedOut } "client_y").1.functional = false ∧
    (bootClient 1
      { verifyImports := [], verifyOpening := false, instantiation := none,
        handshake := HandshakeOutcome.timedOut } "client_y").1.error.isSome = true ∧
    (bootClient 1
      { verifyImports := [], verifyOpening := false, instantiation := none,
        handshake := HandshakeOutcome.timedOut } "client_y").1.teamName = none :=
  handshake_failure_leaves_client_without_identity 1 _ "client_y" rfl (Or.inl rfl)

/-- C8 counterexample: the claim that a client failing validation is never
executed fails on the code.  A client whose source illegally imports `os` is
marked non-functional by the validation step, but `Engine.boot` still imports
its module, instantiates `im.Client()` (line 97-98), and invokes its
`team_name` (line 108): the boot events contain both `instantiated` and
`identityInvoked`. -/
theorem validated_client_still_executed :
    (bootClient 0
      { verifyImports := ["os"], verifyOpening := false, instantiation := none,
        handshake := HandshakeOutcome.inTime "T" } "client_x").1.functional = false ∧
    BootEvent.instantiated ∈
      (bootClient 0
        { verifyImports := ["os"], verifyOpening := false, instantiation := none,
          handshake := HandshakeOutcome.inTime "T" } "client_x").2 ∧
    BootEvent.identityInvoked ∈
      (bootClient 0
        { verifyImports := ["os"], verifyOpening := false, instantiation := none,
          handshake := HandshakeOutcome.inTime "T" } "client_x").2 := by
  decide

/-- C8 amended: a client whose source has a disallowed import or a forbidden
file open is marked non-functional with a diagnostic naming that violation
(the import diagnostic when there are illegal imports, the open diagnostic
otherwise), and this marking happens strictly before the instantiation step
(it is the first boot event); however the client's code is still imported,
instantiated and its identity invoked during boot — it is excluded only from
turn execution. -/
theorem validation_marks_before_instantiation
    (i : Nat) (e : BootEnv) (fn : String)
    (h : e.verifyImports ≠ [] ∨ e.verifyOpening = true) :
    (bootClient i e fn).1.functional = false ∧
    (bootClient i e fn).2.head? =
      some (BootEvent.validationMark
        (if e.verifyImports ≠ [] then importDiag e.verifyImports else openDiag)) ∧
    BootEvent.instantiated ∈ (bootClient i e fn).2 := by
  unfold bootClient
  by_cases hi : e.verifyImports = []
  · have ho : e.verifyOpening = true := by
      rcases h with h | h
      · exact absurd hi h
      · exact h
    cases hins : e.instantiation <;> cases hh : e.handshake <;>
      simp [bootProcess, freshPlayer, hi, ho, hins, hh, retrieveValue]
  · by_cases ho : e.verifyOpening <;> cases hins : e.instantiation <;> cases hh : e.handshake <;>
      simp [bootProcess, freshPlayer, hi, ho, hins, hh, retrieveValue]

/-- Witness for C8's amended claim at a client illegally importing `sys` and,
separately, at a client flagged only for the forbidden file open. -/
theorem validation_marks_before_instantiation_witness :
    ((bootClient 2
      { verifyImports := ["sys"], verifyOpening := false, instantiation := none,
        handshake := HandshakeOutcome.inTime "U" } "client_z").1.functional = false ∧
    (bootClient 2
      { verifyImports := ["sys"], verifyOpening := false, instantiation := none,
        handshake := HandshakeOutcome.inTime "U" } "client_z").2.head? =
      some (BootEvent.validationMark (importDiag ["sys"])) ∧
    BootEvent.instantiated ∈
      (bootClient 2
        { verifyImports := ["sys"], verifyOpening := false, instantiation := none,
          handshake := HandshakeOutcome.inTime "U" } "client_z").2) ∧
    ((bootClient 3
      { verifyImports := [], verifyOpening := true, instantiation := none,
        handshake := HandshakeOutcome.inTime "V" } "client_w").1.functional = false ∧
    (bootClient 3
      { verifyImports := [], verifyOpening := true, instantiation := none,
        handshake := HandshakeOutcome.inTime "V" } "client_w").2.head? =
      some (BootEvent.validationMark openDiag) ∧
    BootEvent.instantiated ∈
      (bootClient 3
        { verifyImports := [], verifyOpening := true, instantiation := none,
          handshake := HandshakeOutcome.inTime "V" } "client_w").2) :=
  ⟨validation_marks_before_instantiation 2 _ "client_z" (Or.inl (by decide)),
   validation_marks_before_instantiation 3 _ "client_w" (Or.inr rfl)⟩

end EngineModel
